import Mathlib

/-!
Verification of the session multiplexer of `src/a2d2/src/ros_data_node.py`
(class `RosDataNode`): the round-robin dispatcher (`__round_robin_sensor`,
`__publish_ros_msg`), the flusher (`__flush_sensors`), and the per-sensor
worker loops (`__publish_images_from_fs`, `__publish_images_from_s3`,
`__publish_pcl_from_fs`, `__publish_pcl_from_s3`, `__publish_bus`,
`__publish_sensor`), shallowly embedded as pure Lean functions.

Modelling conventions:
- Sensor ids and data-type tags are `String`s, as in the source.
- ROS messages are opaque and represented by `Nat` identities; ROS message
  objects are always truthy in Python, so the source's `if sensor and msg`
  is modelled with `Option`.
- Python dicts keyed by the request's sensors are total functions; the set
  of keys of `self.sensor_active` is recovered as `sensor_list.dedup`.
- External collaborators (manifest service, storage readers, calibration,
  the rospy publish sink) are parameters: a manifest is the list of results
  of its successive `fetch()` calls, a record carries the outcomes of the
  fallible conversion steps applied to it, and publishing a message is
  recorded in an output list instead of a network call.
- A raised-and-propagating Python exception is an `err` result carrying the
  state at the raise point; a caught exception resumes with that state.
-/

namespace RosDataNode

/-- Sensor identifier (the source uses string ids such as camera names). -/
abbrev Sensor := String

/-- Opaque ROS message identity. -/
abbrev Msg := Nat

/-- A published (sensor, message) pair: one call of
`self.ros_publishers[sensor].publish(msg)` on the publish sink. -/
abbrev Pub := Sensor × Msg

/-- Constant `RosDataNode.BUS_DATA_TYPE` from the source. -/
def BUS_DATA_TYPE : String := "a2d2_msgs/Bus"

/-- The mutable per-session state of `RosDataNode` that the dispatcher and
flusher read and write: the fields created in `init_request`. -/
structure NodeState where
  /-- `self.sensor_list`: ordered list of requested sensors. -/
  sensor_list : List Sensor
  /-- `self.sensor_dict`: per-sensor FIFO queue of pending messages. -/
  sensor_dict : Sensor → List Msg
  /-- `self.sensor_active`: per-sensor active flag. -/
  sensor_active : Sensor → Bool
  /-- `self.sensor_index`: the round-robin cursor. -/
  sensor_index : Nat
  /-- `self.round_robin`: the skip set (an ordered list in the source). -/
  round_robin : List Sensor
  /-- `self.request["data_type"]`: per-sensor data-type tag. -/
  data_type : Sensor → String

/-- Source `init_request`: fresh per-session state; every queue empty, every
sensor active, cursor 0, empty skip set. -/
def init_request (sensors : List Sensor) (dt : Sensor → String) : NodeState :=
  { sensor_list := sensors
    sensor_dict := fun _ => []
    sensor_active := fun k => decide (k ∈ sensors)
    sensor_index := 0
    round_robin := []
    data_type := dt }

/-- Keys of the dict `self.sensor_active` (one key per distinct requested
sensor). -/
def active_keys (s : NodeState) : List Sensor :=
  s.sensor_list.dedup

/-- Source `__is_sensor_alive`: a sensor is alive iff its queue is non-empty
(truthy) or its active flag is set. -/
def is_sensor_alive (s : NodeState) (k : Sensor) : Bool :=
  !(s.sensor_dict k).isEmpty || s.sensor_active k

/-- Source `__is_bus_sensor`: the sensor's requested data type equals
`BUS_DATA_TYPE`. -/
def is_bus_sensor (s : NodeState) (k : Sensor) : Bool :=
  s.data_type k == BUS_DATA_TYPE

/-- The skip test of the scan in `__round_robin_sensor` (line 148):
`_sensor in self.round_robin and any([True for k in self.sensor_active.keys()
if k not in self.round_robin and self.__is_sensor_alive(k)])`. -/
def rr_skip (s : NodeState) (cand : Sensor) : Bool :=
  s.round_robin.contains cand &&
    (active_keys s).any (fun k => !s.round_robin.contains k && is_sensor_alive s k)

/-- Queue update: replace sensor `a`'s queue by `q`. -/
def set_queue (s : NodeState) (a : Sensor) (q : List Msg) : NodeState :=
  { s with sensor_dict := fun k => if k = a then q else s.sensor_dict k }

/-- The `for _ in self.sensor_list` scan of `__round_robin_sensor`: advance
the cursor cyclically; skip a candidate when `rr_skip` holds; otherwise pop
and return the first candidate with a non-empty queue. `fuel` is the number
of loop iterations left (`len(self.sensor_list)` at the top-level call). -/
def rr_scan : Nat → NodeState → NodeState × Option (Sensor × Msg)
  | 0, s => (s, none)
  | fuel + 1, s =>
    let n := s.sensor_list.length
    let s1 := { s with sensor_index := (s.sensor_index + 1) % n }
    let cand := s1.sensor_list.getD s1.sensor_index ""
    if rr_skip s1 cand then rr_scan fuel s1
    else
      match s1.sensor_dict cand with
      | [] => rr_scan fuel s1
      | m :: t => (set_queue s1 cand t, some (cand, m))

/-- Source `__round_robin_sensor`: append the submitted message to its
sensor's queue, then scan for the sensor to dispatch this turn. -/
def round_robin_sensor (s : NodeState) (sensor : Sensor) (msg : Msg) :
    NodeState × Option (Sensor × Msg) :=
  let s1 := set_queue s sensor (s.sensor_dict sensor ++ [msg])
  rr_scan s1.sensor_list.length s1

/-- Source `__publish_ros_msg`: run the round-robin selection, publish the
selected message if any, then the fairness-cycle maintenance: if the skip
set is at least as large as the set of live non-bus sensors and is
non-empty, evict its oldest entry. Returns the new state and the list of
publish-sink calls made (empty or a singleton). -/
def publish_ros_msg (s : NodeState) (sensor : Sensor) (msg : Msg) :
    NodeState × List Pub :=
  let r := round_robin_sensor s sensor msg
  let s1 := r.1
  let pubs : List Pub :=
    match r.2 with
    | some (sn, m) => [(sn, m)]
    | none => []
  let sensors := (active_keys s1).filter
    (fun k => !is_bus_sensor s1 k && is_sensor_alive s1 k)
  if sensors.length ≤ s1.round_robin.length ∧ s1.round_robin ≠ [] then
    ({ s1 with round_robin := s1.round_robin.tail }, pubs)
  else (s1, pubs)

/-- Setting `self.sensor_active[sensor] = b`. -/
def set_active (s : NodeState) (sensor : Sensor) (b : Bool) : NodeState :=
  { s with sensor_active := fun k => if k = sensor then b else s.sensor_active k }

/-- Result of a loop or batch-processing function: final state, publish-sink
calls made, and a counter (records or batches processed). `err` means a
Python exception escaped, carrying the state and the publishes made up to
the raise point. -/
inductive RunRes where
  | ok : NodeState → List Pub → Nat → RunRes
  | err : NodeState → List Pub → Nat → RunRes

/-- State component of a run result. -/
def RunRes.state : RunRes → NodeState
  | .ok s _ _ => s
  | .err s _ _ => s

/-- Publishes component of a run result. -/
def RunRes.pubs : RunRes → List Pub
  | .ok _ p _ => p
  | .err _ p _ => p

/-- Counter component of a run result. -/
def RunRes.count : RunRes → Nat
  | .ok _ _ n => n
  | .err _ _ n => n

/-- Whether the run completed without an escaping exception. -/
def RunRes.isOk : RunRes → Bool
  | .ok _ _ _ => true
  | .err _ _ _ => false

/-- Whether an exception escaped the run. -/
def RunRes.isErr : RunRes → Bool
  | .ok _ _ _ => false
  | .err _ _ _ => true

/-- The loop body of `__flush_sensors`: rotate the cursor, and on each stop
pop the front of a non-empty queue and read `front.msg`; count sensors seen
with an empty queue in `flushed`; publish the last (sensor, msg) pair seen,
if any, at the end of every iteration; break once `flushed` reaches the
sensor count. The elements queued by `__round_robin_sensor` are the ROS
message objects themselves (`sensor_msgs/Image`, `sensor_msgs/PointCloud2`,
`a2d2_msgs/Bus`), none of which has an attribute `msg`, so the attribute
access `front.msg` raises `AttributeError`; the surrounding handler
re-raises it, which `err` records. `cur` models the loop-carried
`sensor`/`msg` pair (initially `None`). -/
def flush_loop (cur : Option (Sensor × Msg)) (flushed : Nat) (pubs : List Pub) :
    Nat → NodeState → RunRes
  | 0, s => .ok s pubs 0
  | fuel + 1, s =>
    let n := s.sensor_list.length
    let s1 := { s with sensor_index := (s.sensor_index + 1) % n }
    let cand := s1.sensor_list.getD s1.sensor_index ""
    match s1.sensor_dict cand with
    | front :: rest =>
      -- front.msg: AttributeError raised here, re-raised by __flush_sensors
      .err (set_queue s1 cand (front :: rest).tail) pubs 0
    | [] =>
      let flushed1 := flushed + 1
      let pubs1 :=
        match cur with
        | some (sn, m) => pubs ++ [(sn, m)]
        | none => pubs
      if n = flushed1 then .ok s1 pubs1 0
      else flush_loop cur flushed1 pubs1 fuel s1

/-- Source `__flush_sensors`: a single rotation of `len(self.sensor_list)`
iterations over the sensor queues. -/
def flush_sensors (s : NodeState) : RunRes :=
  flush_loop none 0 [] s.sensor_list.length s

/-- The cursor-order selection the dispatcher degenerates to when the skip
set is empty: identical to `rr_scan` with the skip test removed — advance
the cursor cyclically and pop the first non-empty queue found. -/
def plain_scan : Nat → NodeState → NodeState × Option (Sensor × Msg)
  | 0, s => (s, none)
  | fuel + 1, s =>
    let n := s.sensor_list.length
    let s1 := { s with sensor_index := (s.sensor_index + 1) % n }
    let cand := s1.sensor_list.getD s1.sensor_index ""
    match s1.sensor_dict cand with
    | [] => plain_scan fuel s1
    | m :: t => (set_queue s1 cand t, some (cand, m))

/-- A serialized sequence of submissions through `__publish_ros_msg`,
accumulating the publish-sink calls. -/
def run (s : NodeState) : List (Sensor × Msg) → NodeState × List Pub
  | [] => (s, [])
  | (a, m) :: rest =>
    let r1 := publish_ros_msg s a m
    let r2 := run r1.1 rest
    (r2.1, r1.2 ++ r2.2)

/-- A point-cloud coordinate: either a number or the IEEE not-a-number
value. Only the NaN test `np.isnan(points).any()` is applied to
coordinates in the source, so no float arithmetic needs modelling. -/
inductive Coord where
  | nan : Coord
  | val : Int → Coord
deriving DecidableEq

/-- The `np.isnan(points).any()` test of the source. -/
def hasNaN (points : List Coord) : Bool :=
  points.any (fun c => match c with | .nan => true | .val _ => false)

/-- One decoded point-cloud record (one manifest file), with the outcomes of
its fallible conversion steps: `parse_ok` is whether `np.load` plus
`RosUtil.parse_pcl_npz` succeed, `points` are the parsed coordinates,
`convert_ok` is whether `RosUtil.pcl_dense_msg` succeeds, and `msg` is the
resulting ROS message. -/
structure PclRec where
  parse_ok : Bool
  points : List Coord
  convert_ok : Bool
  msg : Msg
deriving DecidableEq

/-- One image record: `load_ok` is whether `cv2.imread` yields usable data
(object-store path only), `undistort_ok` whether `RosUtil.undistort_image`
succeeds, `convert_ok` whether `cv2_to_imgmsg` plus
`RosUtil.set_ros_msg_header` succeed, and `msg` the resulting ROS image
message. -/
structure ImgRec where
  load_ok : Bool
  undistort_ok : Bool
  convert_ok : Bool
  msg : Msg
deriving DecidableEq

/-- One vehicle-bus row: `convert_ok` is whether `RosUtil.bus_msg` succeeds
and `msg` the resulting ROS bus message. -/
structure BusRec where
  convert_ok : Bool
  msg : Msg
deriving DecidableEq

/-- Source `__publish_pcl_msg`: build the dense point-cloud message and
submit it through `__publish_ros_msg`; a `BaseException` anywhere inside
(message construction included) is caught and logged, so the call never
raises. -/
def publish_pcl_msg (s : NodeState) (sensor : Sensor) (r : PclRec) :
    NodeState × List Pub :=
  if r.convert_ok then publish_ros_msg s sensor r.msg else (s, [])

/-- Source `__publish_image_msg`: build the ROS image message and submit it
through `__publish_ros_msg`; a `BaseException` anywhere inside is caught
and logged, so the call never raises. -/
def publish_image_msg (s : NodeState) (sensor : Sensor) (r : ImgRec) :
    NodeState × List Pub :=
  if r.convert_ok then publish_ros_msg s sensor r.msg else (s, [])

/-- The common shape of the source's per-record loops (`for i in range(0,
count)`, `for f in files`, `for row in rows`): run `step` on each record in
order; a step returning `Except.error` is a Python exception escaping the
loop (no per-record handler around that step), recorded as `err` with the
state at the raise point; otherwise continue with the remaining records.
The counter counts records whose processing completed. -/
def fold_records (step : NodeState → α → Except Unit (NodeState × List Pub)) :
    NodeState → List α → RunRes := fun s l =>
  match l with
  | [] => .ok s [] 0
  | r :: rest =>
    match step s r with
    | .error _ => .err s [] 0
    | .ok pr =>
      match fold_records step pr.1 rest with
      | .ok s2 p2 k => .ok s2 (pr.2 ++ p2) (k + 1)
      | .err s2 p2 k => .err s2 (pr.2 ++ p2) (k + 1)

/-- The `for i in range(0, count)` body of `__publish_pcl_from_fs`: join the
reader, parse the npz (a parse failure raises out of the loop — there is no
per-record handler here), test for NaN coordinates, and submit through
`__publish_pcl_msg` when the test passes. -/
def process_fs_pcl_records (s : NodeState) (sensor : Sensor)
    (recs : List PclRec) : RunRes :=
  fold_records (fun s r =>
    if r.parse_ok then
      .ok (if !hasNaN r.points then publish_pcl_msg s sensor r else (s, []))
    else .error ()) s recs

/-- Source `__process_s3_pcl_files`: same per-record steps as the
filesystem path, but the whole record body (load, parse, NaN test, publish,
scratch-file removal) sits inside a per-record `BaseException` handler, so
a failing record is skipped and the remaining records are still
processed. -/
def process_s3_pcl_files (s : NodeState) (sensor : Sensor)
    (recs : List PclRec) : RunRes :=
  fold_records (fun s r =>
    .ok (if r.parse_ok then
           if !hasNaN r.points then publish_pcl_msg s sensor r else (s, [])
         else (s, []))) s recs

/-- The `for i in range(0, count)` body of `__publish_images_from_fs`: join
the reader, undistort when the request's image mode is "undistorted" (an
undistortion failure raises out of the loop — no per-record handler), and
submit through `__publish_image_msg`. -/
def process_fs_image_records (imgMode : String) (s : NodeState) (sensor : Sensor)
    (recs : List ImgRec) : RunRes :=
  fold_records (fun s r =>
    if imgMode == "undistorted" && !r.undistort_ok then .error ()
    else .ok (publish_image_msg s sensor r)) s recs

/-- Source `__process_s3_image_files`: read, optionally undistort, submit,
and remove the scratch file, all inside a per-record `BaseException`
handler, so a failing record is skipped and the rest still processed. -/
def process_s3_image_files (imgMode : String) (s : NodeState) (sensor : Sensor)
    (recs : List ImgRec) : RunRes :=
  fold_records (fun s r =>
    .ok (if r.load_ok then
           if imgMode == "undistorted" && !r.undistort_ok then (s, [])
           else publish_image_msg s sensor r
         else (s, []))) s recs

/-- The `for row in rows` body of `__publish_bus`: convert and submit each
row inside a per-row `BaseException` handler. -/
def process_bus_rows (s : NodeState) (sensor : Sensor)
    (rows : List BusRec) : RunRes :=
  fold_records (fun s r =>
    .ok (if r.convert_ok then publish_ros_msg s sensor r.msg else (s, []))) s rows

/-- A manifest, as seen by a worker loop: the list of results of its
successive `fetch()` calls. `Except.error` is a fetch call that raises;
`Except.ok b` returns batch `b`, which may be empty (the source then polls
again while the manifest is open). The manifest is exhausted when the list
ends. -/
abbrev Fetches (α : Type) := List (Except Unit (List α))

/-- The common shape of the source's five worker loops (`while True:
fetch; process; if preview: break` followed by `self.sensor_active[sensor]
= False`): fetch batches until the manifest is exhausted, skipping empty
batches while it is open; process each non-empty batch with `proc`; stop
after the first processed batch when `preview` is set; clear the active
flag at normal loop exit. The counter counts processed batches. A raising
fetch, or a record failure escaping `proc`, escapes the loop before the
active flag is cleared. -/
def sensor_loop (proc : NodeState → List α → RunRes) (sensor : Sensor)
    (preview : Bool) : NodeState → Fetches α → RunRes := fun s l =>
  match l with
  | [] => .ok (set_active s sensor false) [] 0
  | .error _ :: _ => .err s [] 0
  | .ok [] :: rest => sensor_loop proc sensor preview s rest
  | .ok (r :: rs) :: rest =>
    match proc s (r :: rs) with
    | .err s1 p1 _ => .err s1 p1 0
    | .ok s1 p1 _ =>
      if preview then .ok (set_active s1 sensor false) p1 1
      else
        match sensor_loop proc sensor preview s1 rest with
        | .ok s2 p2 k => .ok s2 (p1 ++ p2) (k + 1)
        | .err s2 p2 k => .err s2 (p1 ++ p2) (k + 1)

/-- Source `__publish_pcl_from_fs`. -/
def publish_pcl_from_fs (preview : Bool) (s : NodeState) (sensor : Sensor)
    (l : Fetches PclRec) : RunRes :=
  sensor_loop (fun s b => process_fs_pcl_records s sensor b) sensor preview s l

/-- Source `__publish_pcl_from_s3`: the same loop over the prefetch
pipeline; per-record failures are absorbed by `__process_s3_pcl_files`. -/
def publish_pcl_from_s3 (preview : Bool) (s : NodeState) (sensor : Sensor)
    (l : Fetches PclRec) : RunRes :=
  sensor_loop (fun s b => process_s3_pcl_files s sensor b) sensor preview s l

/-- Source `__publish_images_from_fs`. -/
def publish_images_from_fs (preview : Bool) (imgMode : String) (s : NodeState)
    (sensor : Sensor) (l : Fetches ImgRec) : RunRes :=
  sensor_loop (fun s b => process_fs_image_records imgMode s sensor b) sensor preview s l

/-- Source `__publish_images_from_s3`. -/
def publish_images_from_s3 (preview : Bool) (imgMode : String) (s : NodeState)
    (sensor : Sensor) (l : Fetches ImgRec) : RunRes :=
  sensor_loop (fun s b => process_s3_image_files imgMode s sensor b) sensor preview s l

/-- Source `__publish_bus` (identical in filesystem and object-store
modes). -/
def publish_bus (preview : Bool) (s : NodeState) (sensor : Sensor)
    (l : Fetches BusRec) : RunRes :=
  sensor_loop (fun s b => process_bus_rows s sensor b) sensor preview s l

/-- A worker's manifest, tagged by record kind. -/
inductive SensorManifest where
  | img : Fetches ImgRec → SensorManifest
  | pcl : Fetches PclRec → SensorManifest
  | bus : Fetches BusRec → SensorManifest

/-- The body of `__publish_sensor`: dispatch on the sensor's requested
data-type tag (through `__publish_images` / `__publish_pcl`, which select
the filesystem or object-store loop by `self.data_store["input"]`); a tag
matching no branch does nothing. -/
def worker_run (preview : Bool) (imgMode : String) (dsInput : String)
    (s : NodeState) (sensor : Sensor) (m : SensorManifest) : RunRes :=
  match s.data_type sensor, m with
  | "sensor_msgs/Image", .img b =>
    if dsInput ≠ "s3" then publish_images_from_fs preview imgMode s sensor b
    else publish_images_from_s3 preview imgMode s sensor b
  | "sensor_msgs/PointCloud2", .pcl b =>
    if dsInput ≠ "s3" then publish_pcl_from_fs preview s sensor b
    else publish_pcl_from_s3 preview s sensor b
  | "a2d2_msgs/Bus", .bus b => publish_bus preview s sensor b
  | _, _ => .ok s [] 0

/-- Source `__publish_sensor`: run the worker body; any escaping exception
is caught and logged, the thread then simply returns — the state at the
raise point is kept as is. -/
def publish_sensor (preview : Bool) (imgMode : String) (dsInput : String)
    (s : NodeState) (sensor : Sensor) (m : SensorManifest) :
    NodeState × List Pub :=
  match worker_run preview imgMode dsInput s sensor m with
  | .ok s1 p _ => (s1, p)
  | .err s1 p _ => (s1, p)

/-- States a session can reach: the state `init_request` builds, closed
under the operations that mutate dispatcher state — a `__publish_ros_msg`
submission, a `sensor_active` assignment, and a `__flush_sensors` call. -/
inductive Reachable (sensors : List Sensor) (dt : Sensor → String) : NodeState → Prop where
  | init : Reachable sensors dt (init_request sensors dt)
  | submit (s : NodeState) (a : Sensor) (m : Msg) :
      Reachable sensors dt s → Reachable sensors dt (publish_ros_msg s a m).1
  | deactivate (s : NodeState) (a : Sensor) (b : Bool) :
      Reachable sensors dt s → Reachable sensors dt (set_active s a b)
  | flush (s : NodeState) :
      Reachable sensors dt s → Reachable sensors dt (flush_sensors s).state

/-- Modelled from the spec text of the skip rule, for comparison with the
source's `rr_skip`: skip a candidate iff it is in the skip set and some
other sensor outside the skip set is alive and is not a bus sensor. -/
def rr_skip_spec (s : NodeState) (cand : Sensor) : Bool :=
  s.round_robin.contains cand &&
    (active_keys s).any (fun k =>
      k != cand && !s.round_robin.contains k &&
        is_sensor_alive s k && !is_bus_sensor s k)

/-- A session state left with one undelivered message in the queue of the
single sensor "lidar/front" when the flusher runs. -/
def stateC2 : NodeState :=
  { sensor_list := ["lidar/front"]
    sensor_dict := fun k => if k = "lidar/front" then [3] else []
    sensor_active := fun _ => false
    sensor_index := 0
    round_robin := []
    data_type := fun _ => "sensor_msgs/PointCloud2" }

/-- A dispatcher state in which candidate "A" is in the skip set and the
only sensor outside the skip set, "B", is alive but is a bus sensor. -/
def stateC3 : NodeState :=
  { sensor_list := ["A", "B"]
    sensor_dict := fun _ => []
    sensor_active := fun _ => true
    sensor_index := 0
    round_robin := ["A"]
    data_type := fun _ => "a2d2_msgs/Bus" }

/-- A dispatcher state with an empty skip set in which sensor "B" already
has a queued message while "A" submits: the cursor reaches "B" first. -/
def stateC9 : NodeState :=
  { sensor_list := ["A", "B"]
    sensor_dict := fun k => if k = "B" then [5] else []
    sensor_active := fun _ => true
    sensor_index := 0
    round_robin := []
    data_type := fun _ => "sensor_msgs/Image" }

/-- A session state with two sensors, one of which still has two queued
messages when the flusher runs. -/
def stateC10 : NodeState :=
  { sensor_list := ["cam/front", "cam/rear"]
    sensor_dict := fun k => if k = "cam/rear" then [7, 8] else []
    sensor_active := fun _ => false
    sensor_index := 0
    round_robin := []
    data_type := fun _ => "sensor_msgs/Image" }

/-- A point-cloud record whose npz parse fails. -/
def badPclRec : PclRec := { parse_ok := false, points := [], convert_ok := true, msg := 3 }

/-- A point-cloud record that decodes cleanly with no NaN coordinate. -/
def goodPclRec : PclRec := { parse_ok := true, points := [.val 2], convert_ok := true, msg := 4 }

/-- A point-cloud record that decodes to points containing a NaN
coordinate. -/
def nanPclRec : PclRec := { parse_ok := true, points := [.nan, .val 2], convert_ok := true, msg := 9 }

/-! Projection lemmas for the record updates used by the operations. -/

@[simp] theorem withIndex_sensor_list (s : NodeState) (e : Nat) :
    ({ s with sensor_index := e } : NodeState).sensor_list = s.sensor_list := rfl

@[simp] theorem withIndex_sensor_dict (s : NodeState) (e : Nat) :
    ({ s with sensor_index := e } : NodeState).sensor_dict = s.sensor_dict := rfl

@[simp] theorem withIndex_sensor_active (s : NodeState) (e : Nat) :
    ({ s with sensor_index := e } : NodeState).sensor_active = s.sensor_active := rfl

@[simp] theorem withIndex_round_robin (s : NodeState) (e : Nat) :
    ({ s with sensor_index := e } : NodeState).round_robin = s.round_robin := rfl

@[simp] theorem withIndex_data_type (s : NodeState) (e : Nat) :
    ({ s with sensor_index := e } : NodeState).data_type = s.data_type := rfl

@[simp] theorem withIndex_sensor_index (s : NodeState) (e : Nat) :
    ({ s with sensor_index := e } : NodeState).sensor_index = e := rfl

@[simp] theorem withRR_sensor_list (s : NodeState) (e : List Sensor) :
    ({ s with round_robin := e } : NodeState).sensor_list = s.sensor_list := rfl

@[simp] theorem withRR_sensor_dict (s : NodeState) (e : List Sensor) :
    ({ s with round_robin := e } : NodeState).sensor_dict = s.sensor_dict := rfl

@[simp] theorem withRR_sensor_active (s : NodeState) (e : List Sensor) :
    ({ s with round_robin := e } : NodeState).sensor_active = s.sensor_active := rfl

@[simp] theorem withRR_round_robin (s : NodeState) (e : List Sensor) :
    ({ s with round_robin := e } : NodeState).round_robin = e := rfl

@[simp] theorem withRR_data_type (s : NodeState) (e : List Sensor) :
    ({ s with round_robin := e } : NodeState).data_type = s.data_type := rfl

@[simp] theorem set_queue_sensor_list (s : NodeState) (a : Sensor) (q : List Msg) :
    (set_queue s a q).sensor_list = s.sensor_list := rfl

@[simp] theorem set_queue_sensor_active (s : NodeState) (a : Sensor) (q : List Msg) :
    (set_queue s a q).sensor_active = s.sensor_active := rfl

@[simp] theorem set_queue_round_robin (s : NodeState) (a : Sensor) (q : List Msg) :
    (set_queue s a q).round_robin = s.round_robin := rfl

@[simp] theorem set_queue_data_type (s : NodeState) (a : Sensor) (q : List Msg) :
    (set_queue s a q).data_type = s.data_type := rfl

@[simp] theorem set_queue_sensor_index (s : NodeState) (a : Sensor) (q : List Msg) :
    (set_queue s a q).sensor_index = s.sensor_index := rfl

theorem set_queue_sensor_dict (s : NodeState) (a : Sensor) (q : List Msg) :
    (set_queue s a q).sensor_dict = fun k => if k = a then q else s.sensor_dict k := rfl

@[simp] theorem set_active_sensor_list (s : NodeState) (a : Sensor) (b : Bool) :
    (set_active s a b).sensor_list = s.sensor_list := rfl

@[simp] theorem set_active_sensor_dict (s : NodeState) (a : Sensor) (b : Bool) :
    (set_active s a b).sensor_dict = s.sensor_dict := rfl

@[simp] theorem set_active_round_robin (s : NodeState) (a : Sensor) (b : Bool) :
    (set_active s a b).round_robin = s.round_robin := rfl

@[simp] theorem RunRes_state_ok (s : NodeState) (p : List Pub) (n : Nat) :
    (RunRes.ok s p n).state = s := rfl

@[simp] theorem RunRes_state_err (s : NodeState) (p : List Pub) (n : Nat) :
    (RunRes.err s p n).state = s := rfl

@[simp] theorem RunRes_pubs_ok (s : NodeState) (p : List Pub) (n : Nat) :
    (RunRes.ok s p n).pubs = p := rfl

@[simp] theorem RunRes_pubs_err (s : NodeState) (p : List Pub) (n : Nat) :
    (RunRes.err s p n).pubs = p := rfl

@[simp] theorem RunRes_count_ok (s : NodeState) (p : List Pub) (n : Nat) :
    (RunRes.ok s p n).count = n := rfl

@[simp] theorem RunRes_count_err (s : NodeState) (p : List Pub) (n : Nat) :
    (RunRes.err s p n).count = n := rfl

@[simp] theorem RunRes_isOk_ok (s : NodeState) (p : List Pub) (n : Nat) :
    (RunRes.ok s p n).isOk = true := rfl

@[simp] theorem RunRes_isOk_err (s : NodeState) (p : List Pub) (n : Nat) :
    (RunRes.err s p n).isOk = false := rfl

@[simp] theorem RunRes_isErr_ok (s : NodeState) (p : List Pub) (n : Nat) :
    (RunRes.ok s p n).isErr = false := rfl

@[simp] theorem RunRes_isErr_err (s : NodeState) (p : List Pub) (n : Nat) :
    (RunRes.err s p n).isErr = true := rfl

/-! Arithmetic of the cyclic cursor. -/

/-- Shifting the start of a cyclic visit sequence by a full reduction
modulo the length does not change the indices visited. -/
theorem mod_add_shift (n a i : Nat) : (a % n + 1 + i) % n = (a + 1 + i) % n := by
  rw [Nat.add_assoc, Nat.mod_add_mod, ← Nat.add_assoc]

/-- Every index of the sensor list is visited by some step of a cyclic scan
of length `n` starting right after position `a`. -/
theorem exists_mod_hit (n j a : Nat) (hn : 0 < n) (hj : j < n) :
    ∃ i, i < n ∧ (a + 1 + i) % n = j := by
  have hr : (a + 1) % n < n := Nat.mod_lt _ hn
  rcases le_or_lt ((a + 1) % n) j with h | h
  · refine ⟨j - (a + 1) % n, by omega, ?_⟩
    rw [← Nat.mod_add_mod]
    have hh : (a + 1) % n + (j - (a + 1) % n) = j := by omega
    rw [hh, Nat.mod_eq_of_lt hj]
  · refine ⟨n + j - (a + 1) % n, by omega, ?_⟩
    rw [← Nat.mod_add_mod]
    have hh : (a + 1) % n + (n + j - (a + 1) % n) = n + j := by omega
    rw [hh, Nat.add_mod_left, Nat.mod_eq_of_lt hj]

/-! Behaviour of the dispatcher scan. -/

/-- With an empty skip set no candidate is ever skipped. -/
theorem rr_skip_nil (s : NodeState) (c : Sensor) (h : s.round_robin = []) :
    rr_skip s c = false := by
  simp [rr_skip, h]

/-- The scan never changes the sensor list, the skip set, the active flags,
or the data types. -/
theorem rr_scan_preserve (fuel : Nat) (s : NodeState) :
    (rr_scan fuel s).1.sensor_list = s.sensor_list ∧
    (rr_scan fuel s).1.round_robin = s.round_robin ∧
    (rr_scan fuel s).1.sensor_active = s.sensor_active ∧
    (rr_scan fuel s).1.data_type = s.data_type := by
  induction fuel generalizing s with
  | zero => simp [rr_scan]
  | succ fuel ih =>
    simp only [rr_scan]
    split
    · have h := ih { s with sensor_index := (s.sensor_index + 1) % s.sensor_list.length }
      simpa using h
    · split
      · have h := ih { s with sensor_index := (s.sensor_index + 1) % s.sensor_list.length }
        simpa using h
      · simp

/-- When the scan pops, the popped message is the head of the selected
sensor's queue, which is the only queue changed. -/
theorem rr_scan_some (fuel : Nat) (s s' : NodeState) (c : Sensor) (m : Msg)
    (h : rr_scan fuel s = (s', some (c, m))) :
    ∃ t, s.sensor_dict c = m :: t ∧
      s'.sensor_dict = fun k => if k = c then t else s.sensor_dict k := by
  induction fuel generalizing s with
  | zero => simp [rr_scan] at h
  | succ fuel ih =>
    simp only [rr_scan] at h
    split at h
    · exact ih { s with sensor_index := (s.sensor_index + 1) % s.sensor_list.length } h
    · split at h
      · exact ih { s with sensor_index := (s.sensor_index + 1) % s.sensor_list.length } h
      · rename_i m' t' heq
        simp only [Prod.mk.injEq, Option.some.injEq] at h
        obtain ⟨hs, hc, hm⟩ := h
        subst hs hc hm
        exact ⟨t', heq, rfl⟩

/-- If the skip set is empty and some position visited within the
remaining fuel holds a non-empty queue, the scan selects a message. -/
theorem rr_scan_finds (fuel : Nat) (s : NodeState) (hrr : s.round_robin = [])
    (hex : ∃ i, i < fuel ∧
      s.sensor_dict (s.sensor_list.getD ((s.sensor_index + 1 + i) % s.sensor_list.length) "") ≠ []) :
    ((rr_scan fuel s).2).isSome = true := by
  induction fuel generalizing s with
  | zero => obtain ⟨i, hi, _⟩ := hex; omega
  | succ fuel ih =>
    obtain ⟨i, hi, hne⟩ := hex
    simp only [rr_scan]
    split
    · rename_i hskip
      rw [rr_skip_nil _ _ (by simpa using hrr)] at hskip
      exact absurd hskip (by simp)
    · split
      · rename_i heq
        rcases i with _ | i'
        · exact absurd (by simpa using heq) (by simpa using hne)
        · apply ih
          · simpa using hrr
          · refine ⟨i', by omega, ?_⟩
            have hsh : ((s.sensor_index + 1) % s.sensor_list.length + 1 + i') % s.sensor_list.length
                = (s.sensor_index + 1 + (i' + 1)) % s.sensor_list.length := by
              rw [mod_add_shift]
              congr 1
              omega
            simpa [hsh] using hne
      · simp

/-- With an empty skip set the scan coincides with the plain cursor-order
selection of the first non-empty queue. -/
theorem rr_scan_eq_plain (fuel : Nat) (s : NodeState) (hrr : s.round_robin = []) :
    rr_scan fuel s = plain_scan fuel s := by
  induction fuel generalizing s with
  | zero => rfl
  | succ fuel ih =>
    simp only [rr_scan, plain_scan]
    rw [rr_skip_nil _ _ (by simpa using hrr)]
    simp only [Bool.false_eq_true, if_false]
    split
    · exact ih _ (by simpa using hrr)
    · rfl

/-! Behaviour of a single `__publish_ros_msg` submission. -/

/-- With an empty skip set and the submitter among the sensors, a
submission publishes exactly one message: the appended message guarantees
the cyclic scan a non-empty queue. -/
theorem publish_ros_msg_one (s : NodeState) (a : Sensor) (m : Msg)
    (hrr : s.round_robin = []) (hmem : a ∈ s.sensor_list) :
    ((publish_ros_msg s a m).2).length = 1 := by
  have hn : 0 < s.sensor_list.length := List.length_pos.mpr (List.ne_nil_of_mem hmem)
  obtain ⟨j, hj, hgj⟩ := List.getElem_of_mem hmem
  obtain ⟨i, hi, him⟩ := exists_mod_hit s.sensor_list.length j s.sensor_index hn hj
  have hfind : ((rr_scan (set_queue s a (s.sensor_dict a ++ [m])).sensor_list.length
      (set_queue s a (s.sensor_dict a ++ [m]))).2).isSome = true := by
    apply rr_scan_finds
    · simpa using hrr
    · refine ⟨i, by simpa using hi, ?_⟩
      simp only [set_queue_sensor_list, set_queue_sensor_index]
      rw [him, List.getD_eq_getElem _ _ hj, hgj]
      simp [set_queue]
  simp only [publish_ros_msg, round_robin_sensor]
  rcases hsc : rr_scan (set_queue s a (s.sensor_dict a ++ [m])).sensor_list.length
      (set_queue s a (s.sensor_dict a ++ [m])) with ⟨s2, r⟩
  rw [hsc] at hfind
  rcases r with _ | ⟨c, mm⟩
  · simp at hfind
  · split <;> simp

/-- A submission never changes the sensor list, the active flags, or the
data types. -/
theorem publish_ros_msg_preserve (s : NodeState) (a : Sensor) (m : Msg) :
    (publish_ros_msg s a m).1.sensor_list = s.sensor_list ∧
    (publish_ros_msg s a m).1.sensor_active = s.sensor_active ∧
    (publish_ros_msg s a m).1.data_type = s.data_type := by
  have hp := rr_scan_preserve (set_queue s a (s.sensor_dict a ++ [m])).sensor_list.length
      (set_queue s a (s.sensor_dict a ++ [m]))
  simp only [publish_ros_msg, round_robin_sensor]
  rcases hsc : rr_scan (set_queue s a (s.sensor_dict a ++ [m])).sensor_list.length
      (set_queue s a (s.sensor_dict a ++ [m])) with ⟨s2, r⟩
  rw [hsc] at hp
  simp at hp
  split <;> simp [hp.1, hp.2.2.1, hp.2.2.2]

/-- A submission keeps an empty skip set empty: the scan does not touch it
and the eviction step requires it non-empty. -/
theorem publish_ros_msg_rr (s : NodeState) (a : Sensor) (m : Msg)
    (hrr : s.round_robin = []) :
    (publish_ros_msg s a m).1.round_robin = [] := by
  have hp := (rr_scan_preserve (set_queue s a (s.sensor_dict a ++ [m])).sensor_list.length
      (set_queue s a (s.sensor_dict a ++ [m]))).2.1
  simp only [publish_ros_msg, round_robin_sensor]
  rcases hsc : rr_scan (set_queue s a (s.sensor_dict a ++ [m])).sensor_list.length
      (set_queue s a (s.sensor_dict a ++ [m])) with ⟨s2, r⟩
  rw [hsc] at hp
  simp only [set_queue_round_robin] at hp
  rw [hrr] at hp
  have hp2 : s2.round_robin = [] := hp
  split <;> simp [hp2]

/-- From a state where every queue is empty, a submission by a listed
sensor publishes exactly the submitted message and returns to a state with
every queue empty, the skip set still empty, and all other components of
the session unchanged. -/
theorem publish_ros_msg_allEmpty (s : NodeState) (a : Sensor) (m : Msg)
    (hrr : s.round_robin = []) (hmem : a ∈ s.sensor_list)
    (hemp : ∀ k, s.sensor_dict k = []) :
    ∃ s2, publish_ros_msg s a m = (s2, [(a, m)]) ∧
      (∀ k, s2.sensor_dict k = []) ∧ s2.round_robin = [] ∧
      s2.sensor_list = s.sensor_list ∧ s2.sensor_active = s.sensor_active ∧
      s2.data_type = s.data_type := by
  have hn : 0 < s.sensor_list.length := List.length_pos.mpr (List.ne_nil_of_mem hmem)
  obtain ⟨j, hj, hgj⟩ := List.getElem_of_mem hmem
  obtain ⟨i, hi, him⟩ := exists_mod_hit s.sensor_list.length j s.sensor_index hn hj
  have hfind : ((rr_scan (set_queue s a (s.sensor_dict a ++ [m])).sensor_list.length
      (set_queue s a (s.sensor_dict a ++ [m]))).2).isSome = true := by
    apply rr_scan_finds
    · simpa using hrr
    · refine ⟨i, by simpa using hi, ?_⟩
      simp only [set_queue_sensor_list, set_queue_sensor_index]
      rw [him, List.getD_eq_getElem _ _ hj, hgj]
      simp [set_queue]
  have hpre := rr_scan_preserve (set_queue s a (s.sensor_dict a ++ [m])).sensor_list.length
      (set_queue s a (s.sensor_dict a ++ [m]))
  simp only [publish_ros_msg, round_robin_sensor]
  rcases hsc : rr_scan (set_queue s a (s.sensor_dict a ++ [m])).sensor_list.length
      (set_queue s a (s.sensor_dict a ++ [m])) with ⟨s2, r⟩
  rw [hsc] at hfind hpre
  rcases r with _ | ⟨c, mm⟩
  · simp at hfind
  · obtain ⟨t, hct, hdict⟩ := rr_scan_some _ _ _ _ _ hsc
    have hct2 : (if c = a then s.sensor_dict a ++ [m] else s.sensor_dict c) = mm :: t := hct
    have hqa : s.sensor_dict a ++ [m] = [m] := by rw [hemp a]; rfl
    have hca : c = a := by
      by_contra hca
      rw [if_neg hca, hemp c] at hct2
      exact List.noConfusion hct2
    subst hca
    rw [if_pos rfl, hqa] at hct2
    injection hct2 with hm ht
    subst hm ht
    have hemp2 : ∀ k, s2.sensor_dict k = [] := by
      intro k
      simp only [hdict, set_queue_sensor_dict]
      by_cases hk : k = c
      · simp [hk]
      · simp [hk, hemp k]
    have hrr2 : s2.round_robin = [] := by
      have h := hpre.2.1
      simpa [hrr] using h
    refine ⟨s2, ?_, hemp2, hrr2, by simpa using hpre.1, by simpa using hpre.2.2.1,
      by simpa using hpre.2.2.2⟩
    split
    · rename_i hcon
      exact absurd (show (s2, some (c, m)).1.round_robin = [] from hrr2) hcon.2
    · rfl

/-! Serialized sessions. -/

/-- A serialized run of submissions from a state with all queues empty and
an empty skip set publishes exactly the submitted messages, in order, and
ends with every queue empty again. -/
theorem run_allEmpty (subs : List (Sensor × Msg)) (s : NodeState)
    (hrr : s.round_robin = []) (hemp : ∀ k, s.sensor_dict k = [])
    (hmem : ∀ p ∈ subs, p.1 ∈ s.sensor_list) :
    (run s subs).2 = subs ∧ (∀ k, (run s subs).1.sensor_dict k = []) ∧
      (run s subs).1.round_robin = [] ∧ (run s subs).1.sensor_list = s.sensor_list := by
  induction subs generalizing s with
  | nil => exact ⟨rfl, hemp, hrr, rfl⟩
  | cons p rest ih =>
    obtain ⟨a, m⟩ := p
    obtain ⟨s2, hstep, hemp2, hrr2, hlist2, _, _⟩ :=
      publish_ros_msg_allEmpty s a m hrr (hmem (a, m) (by simp)) hemp
    have hmem2 : ∀ q ∈ rest, q.1 ∈ s2.sensor_list := by
      intro q hq
      rw [hlist2]
      exact hmem q (by simp [hq])
    have ihh := ih s2 hrr2 hemp2 hmem2
    simp only [run, hstep]
    refine ⟨?_, ihh.2.1, ihh.2.2.1, by rw [ihh.2.2.2, hlist2]⟩
    simp [ihh.1]

/-! Behaviour of the flusher. -/

/-- The flusher loop never touches the skip set. -/
theorem flush_loop_rr (cur : Option (Sensor × Msg)) (flushed : Nat) (pubs : List Pub)
    (fuel : Nat) (s : NodeState) :
    ((flush_loop cur flushed pubs fuel s).state).round_robin = s.round_robin := by
  induction fuel generalizing flushed pubs s with
  | zero => rfl
  | succ fuel ih =>
    simp only [flush_loop]
    split
    · simp
    · split
      · simp
      · exact ih _ _ _

/-- `__flush_sensors` never touches the skip set. -/
theorem flush_state_rr (s : NodeState) :
    ((flush_sensors s).state).round_robin = s.round_robin :=
  flush_loop_rr none 0 [] s.sensor_list.length s

/-- On a state with every queue empty the flusher loop completes without
publishing anything beyond the accumulator it was given. -/
theorem flush_loop_allEmpty (fuel flushed : Nat) (pubs : List Pub) (s : NodeState)
    (hemp : ∀ k, s.sensor_dict k = []) :
    (flush_loop none flushed pubs fuel s).isOk = true ∧
    (flush_loop none flushed pubs fuel s).pubs = pubs := by
  induction fuel generalizing flushed s with
  | zero => simp [flush_loop]
  | succ fuel ih =>
    simp only [flush_loop]
    split
    · rename_i front rest heq
      rw [withIndex_sensor_dict, hemp] at heq
      exact List.noConfusion heq
    · split
      · simp
      · exact ih _ _ hemp

/-- If a position visited within the remaining fuel holds a non-empty
queue, the flusher loop raises on the attribute access, having published
nothing beyond its accumulator. `flushed + fuel` equals the sensor count
throughout `__flush_sensors`, so the early break cannot preempt the
visit. -/
theorem flush_loop_finds (fuel flushed : Nat) (pubs : List Pub) (s : NodeState)
    (hinv : flushed + fuel = s.sensor_list.length)
    (hex : ∃ i, i < fuel ∧
      s.sensor_dict (s.sensor_list.getD ((s.sensor_index + 1 + i) % s.sensor_list.length) "") ≠ []) :
    (flush_loop none flushed pubs fuel s).isErr = true ∧
    (flush_loop none flushed pubs fuel s).pubs = pubs := by
  induction fuel generalizing flushed s with
  | zero => obtain ⟨i, hi, _⟩ := hex; omega
  | succ fuel ih =>
    obtain ⟨i, hi, hne⟩ := hex
    simp only [flush_loop]
    split
    · simp
    · rename_i heq
      rcases i with _ | i'
      · exact absurd (by simpa using heq) (by simpa using hne)
      · split
        · rename_i hbreak
          exfalso
          omega
        · apply ih
          · simp only [withIndex_sensor_list]
            omega
          · refine ⟨i', by omega, ?_⟩
            have hsh : ((s.sensor_index + 1) % s.sensor_list.length + 1 + i') % s.sensor_list.length
                = (s.sensor_index + 1 + (i' + 1)) % s.sensor_list.length := by
              rw [mod_add_shift]
              congr 1
              omega
            simpa [hsh] using hne

/-- `__flush_sensors` on a state with every queue empty completes and
publishes nothing. -/
theorem flush_sensors_allEmpty (s : NodeState) (hemp : ∀ k, s.sensor_dict k = []) :
    (flush_sensors s).isOk = true ∧ (flush_sensors s).pubs = [] :=
  flush_loop_allEmpty s.sensor_list.length 0 [] s hemp

/-- `__flush_sensors` on a state where some listed sensor has a pending
message raises and publishes nothing. -/
theorem flush_sensors_pending (s : NodeState)
    (hx : ∃ x ∈ s.sensor_list, s.sensor_dict x ≠ []) :
    (flush_sensors s).isErr = true ∧ (flush_sensors s).pubs = [] := by
  obtain ⟨x, hxl, hxq⟩ := hx
  have hn : 0 < s.sensor_list.length := List.length_pos.mpr (List.ne_nil_of_mem hxl)
  obtain ⟨j, hj, hgj⟩ := List.getElem_of_mem hxl
  obtain ⟨i, hi, him⟩ := exists_mod_hit s.sensor_list.length j s.sensor_index hn hj
  apply flush_loop_finds
  · omega
  · refine ⟨i, hi, ?_⟩
    rw [him, List.getD_eq_getElem _ _ hj, hgj]
    exact hxq

/-! Behaviour of the per-record processors and worker loops. -/

/-- `__publish_pcl_msg` never changes the active flags. -/
theorem publish_pcl_msg_active (s : NodeState) (sensor : Sensor) (r : PclRec) :
    (publish_pcl_msg s sensor r).1.sensor_active = s.sensor_active := by
  unfold publish_pcl_msg
  split
  · exact (publish_ros_msg_preserve s sensor r.msg).2.1
  · rfl

/-- `__publish_image_msg` never changes the active flags. -/
theorem publish_image_msg_active (s : NodeState) (sensor : Sensor) (r : ImgRec) :
    (publish_image_msg s sensor r).1.sensor_active = s.sensor_active := by
  unfold publish_image_msg
  split
  · exact (publish_ros_msg_preserve s sensor r.msg).2.1
  · rfl

/-- A record loop whose step never changes the active flags leaves them
unchanged, whether or not a step raises. -/
theorem fold_records_active (step : NodeState → α → Except Unit (NodeState × List Pub))
    (hstep : ∀ s r pr, step s r = .ok pr → pr.1.sensor_active = s.sensor_active)
    (l : List α) (s : NodeState) :
    ((fold_records step s l).state).sensor_active = s.sensor_active := by
  induction l generalizing s with
  | nil => rfl
  | cons r rest ih =>
    simp only [fold_records]
    split
    · rfl
    · rename_i pr hpr
      split
      · rename_i s2 p2 k hrec
        have h := ih pr.1
        rw [hrec] at h
        simpa [hstep s r pr hpr] using h
      · rename_i s2 p2 k hrec
        have h := ih pr.1
        rw [hrec] at h
        simpa [hstep s r pr hpr] using h

/-- A record loop whose step never raises completes and processes every
record of the batch. -/
theorem fold_records_total (step : NodeState → α → Except Unit (NodeState × List Pub))
    (hstep : ∀ s r, ∃ pr, step s r = .ok pr)
    (l : List α) (s : NodeState) :
    (fold_records step s l).isOk = true ∧ (fold_records step s l).count = l.length := by
  induction l generalizing s with
  | nil => simp [fold_records]
  | cons r rest ih =>
    obtain ⟨pr, hpr⟩ := hstep s r
    simp only [fold_records, hpr]
    split
    · rename_i s2 p2 k hrec
      have h := ih pr.1
      rw [hrec] at h
      refine ⟨by simp, ?_⟩
      have h2 : k = rest.length := by simpa using h.2
      simp [h2]
    · rename_i s2 p2 k hrec
      have h := ih pr.1
      rw [hrec] at h
      simp at h

/-- With `preview` set, a worker loop processes at most one batch,
whatever the manifest. -/
theorem sensor_loop_preview (proc : NodeState → List α → RunRes) (sensor : Sensor)
    (l : Fetches α) (s : NodeState) :
    (sensor_loop proc sensor true s l).count ≤ 1 := by
  induction l generalizing s with
  | nil => simp [sensor_loop]
  | cons b rest ih =>
    rcases b with e | batch
    · simp [sensor_loop]
    · rcases batch with _ | ⟨r, rs⟩
      · simpa [sensor_loop] using ih s
      · simp only [sensor_loop]
        split
        · simp
        · simp

/-- A worker loop that ends on the raise path keeps the active flags of
the state it started from, provided its processor keeps them. -/
theorem sensor_loop_err_active (proc : NodeState → List α → RunRes) (sensor : Sensor)
    (preview : Bool)
    (hproc : ∀ s b, ((proc s b).state).sensor_active = s.sensor_active)
    (l : Fetches α) (s : NodeState)
    (herr : (sensor_loop proc sensor preview s l).isErr = true) :
    ((sensor_loop proc sensor preview s l).state).sensor_active = s.sensor_active := by
  induction l generalizing s with
  | nil => simp [sensor_loop] at herr
  | cons b rest ih =>
    rcases b with e | batch
    · rfl
    · rcases batch with _ | ⟨r, rs⟩
      · simp only [sensor_loop] at herr ⊢
        exact ih s herr
      · rcases hp : proc s (r :: rs) with ⟨s1, p1, k⟩ | ⟨s1, p1, k⟩
        · -- processor completed the batch
          rcases preview with _ | _
          · -- preview false: continue with the rest of the manifest
            rcases hrec : sensor_loop proc sensor false s1 rest with ⟨s2, p2, k2⟩ | ⟨s2, p2, k2⟩
            · simp only [sensor_loop, hp, hrec] at herr
              simp at herr
            · simp only [sensor_loop, hp, hrec] at herr ⊢
              have h1 : s1.sensor_active = s.sensor_active := by
                have h := hproc s (r :: rs)
                rw [hp] at h
                simpa using h
              have h2 := ih s1 (by rw [hrec]; rfl)
              rw [hrec] at h2
              simp at h2
              simp [h2, h1]
          · -- preview true: loop ends with the ok constructor
            simp only [sensor_loop, hp] at herr
            simp at herr
        · -- the batch raised out of the processor
          simp only [sensor_loop, hp] at herr ⊢
          have h := hproc s (r :: rs)
          rw [hp] at h
          simpa using h

/-- Equation form of `sensor_loop_err_active`. -/
theorem sensor_loop_err_eq (proc : NodeState → List α → RunRes) (sensor : Sensor)
    (preview : Bool)
    (hproc : ∀ s b, ((proc s b).state).sensor_active = s.sensor_active)
    (l : Fetches α) (s s1 : NodeState) (p : List Pub) (k : Nat)
    (h : sensor_loop proc sensor preview s l = .err s1 p k) :
    s1.sensor_active = s.sensor_active := by
  have h2 := sensor_loop_err_active proc sensor preview hproc l s (by rw [h]; rfl)
  rw [h] at h2
  simpa using h2

/-- The filesystem point-cloud processor keeps the active flags. -/
theorem process_fs_pcl_records_active (s : NodeState) (sensor : Sensor) (recs : List PclRec) :
    ((process_fs_pcl_records s sensor recs).state).sensor_active = s.sensor_active := by
  apply fold_records_active
  intro s r pr hpr
  split at hpr
  · injection hpr with hpr
    subst hpr
    split
    · exact publish_pcl_msg_active _ _ _
    · rfl
  · exact Except.noConfusion hpr

/-- The object-store point-cloud processor keeps the active flags. -/
theorem process_s3_pcl_files_active (s : NodeState) (sensor : Sensor) (recs : List PclRec) :
    ((process_s3_pcl_files s sensor recs).state).sensor_active = s.sensor_active := by
  apply fold_records_active
  intro s r pr hpr
  injection hpr with hpr
  subst hpr
  split
  · split
    · exact publish_pcl_msg_active _ _ _
    · rfl
  · rfl

/-- The filesystem image processor keeps the active flags. -/
theorem process_fs_image_records_active (imgMode : String) (s : NodeState)
    (sensor : Sensor) (recs : List ImgRec) :
    ((process_fs_image_records imgMode s sensor recs).state).sensor_active = s.sensor_active := by
  apply fold_records_active
  intro s r pr hpr
  split at hpr
  · exact Except.noConfusion hpr
  · injection hpr with hpr
    subst hpr
    exact publish_image_msg_active _ _ _

/-- The object-store image processor keeps the active flags. -/
theorem process_s3_image_files_active (imgMode : String) (s : NodeState)
    (sensor : Sensor) (recs : List ImgRec) :
    ((process_s3_image_files imgMode s sensor recs).state).sensor_active = s.sensor_active := by
  apply fold_records_active
  intro s r pr hpr
  injection hpr with hpr
  subst hpr
  split
  · split
    · rfl
    · exact publish_image_msg_active _ _ _
  · rfl

/-- The bus-row processor keeps the active flags. -/
theorem process_bus_rows_active (s : NodeState) (sensor : Sensor) (rows : List BusRec) :
    ((process_bus_rows s sensor rows).state).sensor_active = s.sensor_active := by
  apply fold_records_active
  intro s r pr hpr
  injection hpr with hpr
  subst hpr
  split
  · exact (publish_ros_msg_preserve _ _ _).2.1
  · rfl

/-- The object-store point-cloud processor never raises and examines every
record of the batch. -/
theorem process_s3_pcl_files_total (s : NodeState) (sensor : Sensor) (recs : List PclRec) :
    (process_s3_pcl_files s sensor recs).isOk = true ∧
    (process_s3_pcl_files s sensor recs).count = recs.length :=
  fold_records_total _ (fun _ _ => ⟨_, rfl⟩) recs s

/-- The object-store image processor never raises and examines every
record of the batch. -/
theorem process_s3_image_files_total (imgMode : String) (s : NodeState)
    (sensor : Sensor) (recs : List ImgRec) :
    (process_s3_image_files imgMode s sensor recs).isOk = true ∧
    (process_s3_image_files imgMode s sensor recs).count = recs.length :=
  fold_records_total _ (fun _ _ => ⟨_, rfl⟩) recs s

/-- The bus-row processor never raises and examines every row of the
batch. -/
theorem process_bus_rows_total (s : NodeState) (sensor : Sensor) (rows : List BusRec) :
    (process_bus_rows s sensor rows).isOk = true ∧
    (process_bus_rows s sensor rows).count = rows.length :=
  fold_records_total _ (fun _ _ => ⟨_, rfl⟩) rows s

/-- A parse failure on the first record of a filesystem point-cloud batch
raises immediately: nothing is published and no further record of the
batch is examined. -/
theorem process_fs_pcl_records_parse_fail (s : NodeState) (sensor : Sensor)
    (r : PclRec) (rest : List PclRec) (h : r.parse_ok = false) :
    process_fs_pcl_records s sensor (r :: rest) = .err s [] 0 := by
  simp [process_fs_pcl_records, fold_records, h]

/-- An undistortion failure on the first record of a filesystem image
batch in undistorted mode raises immediately. -/
theorem process_fs_image_records_undistort_fail (s : NodeState) (sensor : Sensor)
    (r : ImgRec) (rest : List ImgRec) (h : r.undistort_ok = false) :
    process_fs_image_records "undistorted" s sensor (r :: rest) = .err s [] 0 := by
  simp [process_fs_image_records, fold_records, h]

/-- Error path of `__publish_images_from_fs` keeps the active flags. -/
theorem publish_images_from_fs_err (preview : Bool) (imgMode : String)
    (s : NodeState) (sensor : Sensor) (l : Fetches ImgRec)
    (s1 : NodeState) (p : List Pub) (k : Nat)
    (h : publish_images_from_fs preview imgMode s sensor l = .err s1 p k) :
    s1.sensor_active = s.sensor_active :=
  sensor_loop_err_eq _ sensor preview
    (fun s b => process_fs_image_records_active imgMode s sensor b) l s s1 p k h

/-- Error path of `__publish_images_from_s3` keeps the active flags. -/
theorem publish_images_from_s3_err (preview : Bool) (imgMode : String)
    (s : NodeState) (sensor : Sensor) (l : Fetches ImgRec)
    (s1 : NodeState) (p : List Pub) (k : Nat)
    (h : publish_images_from_s3 preview imgMode s sensor l = .err s1 p k) :
    s1.sensor_active = s.sensor_active :=
  sensor_loop_err_eq _ sensor preview
    (fun s b => process_s3_image_files_active imgMode s sensor b) l s s1 p k h

/-- Error path of `__publish_pcl_from_fs` keeps the active flags. -/
theorem publish_pcl_from_fs_err (preview : Bool) (s : NodeState) (sensor : Sensor)
    (l : Fetches PclRec) (s1 : NodeState) (p : List Pub) (k : Nat)
    (h : publish_pcl_from_fs preview s sensor l = .err s1 p k) :
    s1.sensor_active = s.sensor_active :=
  sensor_loop_err_eq _ sensor preview
    (fun s b => process_fs_pcl_records_active s sensor b) l s s1 p k h

/-- Error path of `__publish_pcl_from_s3` keeps the active flags. -/
theorem publish_pcl_from_s3_err (preview : Bool) (s : NodeState) (sensor : Sensor)
    (l : Fetches PclRec) (s1 : NodeState) (p : List Pub) (k : Nat)
    (h : publish_pcl_from_s3 preview s sensor l = .err s1 p k) :
    s1.sensor_active = s.sensor_active :=
  sensor_loop_err_eq _ sensor preview
    (fun s b => process_s3_pcl_files_active s sensor b) l s s1 p k h

/-- Error path of `__publish_bus` keeps the active flags. -/
theorem publish_bus_err (preview : Bool) (s : NodeState) (sensor : Sensor)
    (l : Fetches BusRec) (s1 : NodeState) (p : List Pub) (k : Nat)
    (h : publish_bus preview s sensor l = .err s1 p k) :
    s1.sensor_active = s.sensor_active :=
  sensor_loop_err_eq _ sensor preview
    (fun s b => process_bus_rows_active s sensor b) l s s1 p k h

/-- Whatever branch of `__publish_sensor`'s worker body raises, the state
kept by the handler has the same active flags as the state the worker
started from: no error path clears the flag. -/
theorem worker_run_err_active (preview : Bool) (imgMode dsInput : String)
    (s : NodeState) (sensor : Sensor) (m : SensorManifest)
    (s1 : NodeState) (p : List Pub) (k : Nat)
    (h : worker_run preview imgMode dsInput s sensor m = .err s1 p k) :
    s1.sensor_active = s.sensor_active := by
  unfold worker_run at h
  split at h
  · split at h
    · exact publish_images_from_fs_err _ _ _ _ _ _ _ _ h
    · exact publish_images_from_s3_err _ _ _ _ _ _ _ _ h
  · split at h
    · exact publish_pcl_from_fs_err _ _ _ _ _ _ _ h
    · exact publish_pcl_from_s3_err _ _ _ _ _ _ _ h
  · exact publish_bus_err _ _ _ _ _ _ _ h
  · exact RunRes.noConfusion h

/-! The claims. -/

/-- C1: in a serialized session over `__publish_ros_msg` starting from the
state `init_request` builds, every message submitted by a sensor worker is
published to the sink exactly once over the whole session: dispatch
publishes exactly the submitted messages, in submission order, and the
final `__flush_sensors` completes having published nothing further (point
clouds discarded by the documented NaN skip are filtered before
submission, so they never enter the submitted sequence). -/
theorem claim_C1_exactly_once (sensors : List Sensor) (dt : Sensor → String)
    (subs : List (Sensor × Msg)) (hmem : ∀ p ∈ subs, p.1 ∈ sensors) :
    (run (init_request sensors dt) subs).2 = subs ∧
    (flush_sensors (run (init_request sensors dt) subs).1).isOk = true ∧
    (flush_sensors (run (init_request sensors dt) subs).1).pubs = [] := by
  have h := run_allEmpty subs (init_request sensors dt) rfl (fun _ => rfl) hmem
  exact ⟨h.1, (flush_sensors_allEmpty _ h.2.1).1, (flush_sensors_allEmpty _ h.2.1).2⟩

/-- C1 witness: a concrete two-sensor session with three submissions. -/
theorem claim_C1_exactly_once_witness :
    (run (init_request ["cam", "lidar"] (fun _ => "sensor_msgs/Image"))
        [("cam", 1), ("lidar", 2), ("cam", 3)]).2 = [("cam", 1), ("lidar", 2), ("cam", 3)] ∧
    (flush_sensors (run (init_request ["cam", "lidar"] (fun _ => "sensor_msgs/Image"))
        [("cam", 1), ("lidar", 2), ("cam", 3)]).1).isOk = true ∧
    (flush_sensors (run (init_request ["cam", "lidar"] (fun _ => "sensor_msgs/Image"))
        [("cam", 1), ("lidar", 2), ("cam", 3)]).1).pubs = [] :=
  claim_C1_exactly_once _ _ _ (by decide)

/-- C2: the claim says one `__flush_sensors` invocation terminates and
leaves every sensor queue empty, having popped and published one message
per non-empty sensor per pass; on `stateC2`, which holds one pending
message, the flush instead raises on the attribute access `front.msg` (the
queued elements are ROS message objects with no such field) and publishes
nothing — the pending message is popped and lost, not delivered. -/
theorem claim_C2_flush_divergence :
    (flush_sensors stateC2).isErr = true ∧ (flush_sensors stateC2).pubs = [] := by
  constructor <;> rfl

/-- C3 counterexample: on `stateC3` candidate "A" is skipped by the code
(`rr_skip` is true) although the only alive sensor outside the skip set is
a bus sensor, so the claim's predicate (`rr_skip_spec`, which requires a
non-bus such sensor) does not skip it. -/
theorem claim_C3_skip_counterexample :
    rr_skip stateC3 "A" = true ∧ rr_skip_spec stateC3 "A" = false := by
  constructor <;> rfl

/-- C3 amended: a candidate is skipped iff it is in the skip set and there
is at least one other sensor, not in the skip set, that is alive — whether
or not that sensor is a bus sensor (the code's existence test does not
exclude bus sensors; bus sensors are excluded only in the eviction step of
`__publish_ros_msg`). -/
theorem claim_C3_skip_rule (s : NodeState) (cand : Sensor) :
    rr_skip s cand = true ↔
      (cand ∈ s.round_robin ∧
        ∃ k ∈ active_keys s, k ≠ cand ∧ k ∉ s.round_robin ∧ is_sensor_alive s k = true) := by
  simp only [rr_skip, Bool.and_eq_true, List.any_eq_true, Bool.not_eq_true']
  constructor
  · rintro ⟨h1, k, hk, hk2, hk3⟩
    have hmem : cand ∈ s.round_robin := by
      simpa using h1
    have hknot : k ∉ s.round_robin := by
      simpa using hk2
    refine ⟨hmem, k, hk, ?_, hknot, hk3⟩
    rintro rfl
    exact hknot hmem
  · rintro ⟨h1, k, hk, _, hk2, hk3⟩
    refine ⟨by simpa using h1, k, hk, ?_, hk3⟩
    simpa using hk2

/-- C4 counterexample: a filesystem point-cloud batch whose first record
fails to parse makes the worker loop raise without examining the following
good record and without publishing anything — the claimed "skip and
continue with the remaining records" fails on this path. -/
theorem claim_C4_counterexample :
    (publish_pcl_from_fs false (init_request ["L"] (fun _ => "sensor_msgs/PointCloud2")) "L"
        [Except.ok [badPclRec, goodPclRec]]).isErr = true ∧
    (publish_pcl_from_fs false (init_request ["L"] (fun _ => "sensor_msgs/PointCloud2")) "L"
        [Except.ok [badPclRec, goodPclRec]]).pubs = [] := by
  constructor <;> rfl

/-- C4 amended: per-record conversion failures are caught and skipped, the
worker continuing with the remaining records, in the object-store image
and point-cloud paths and in the bus path; in the filesystem paths,
however, a point-cloud parse failure or an image undistortion failure
escapes the per-record handlers and raises out of the processing loop,
ending that worker's processing (the session continues through
`__publish_sensor`'s handler). -/
theorem claim_C4_per_record_errors :
    (∀ (s : NodeState) sensor recs, (process_s3_pcl_files s sensor recs).isOk = true ∧
        (process_s3_pcl_files s sensor recs).count = recs.length) ∧
    (∀ imgMode (s : NodeState) sensor recs,
        (process_s3_image_files imgMode s sensor recs).isOk = true ∧
        (process_s3_image_files imgMode s sensor recs).count = recs.length) ∧
    (∀ (s : NodeState) sensor rows, (process_bus_rows s sensor rows).isOk = true ∧
        (process_bus_rows s sensor rows).count = rows.length) ∧
    (∀ (s : NodeState) sensor r rest, r.parse_ok = false →
        process_fs_pcl_records s sensor (r :: rest) = RunRes.err s [] 0) ∧
    (∀ (s : NodeState) sensor r rest, r.undistort_ok = false →
        process_fs_image_records "undistorted" s sensor (r :: rest) = RunRes.err s [] 0) :=
  ⟨process_s3_pcl_files_total, process_s3_image_files_total, process_bus_rows_total,
    process_fs_pcl_records_parse_fail, process_fs_image_records_undistort_fail⟩

/-- C4 witness: the object-store path examines both records of a batch
whose first record fails, while the filesystem path raises at once. -/
theorem claim_C4_per_record_errors_witness :
    ((process_s3_pcl_files (init_request ["L"] (fun _ => "sensor_msgs/PointCloud2")) "L"
        [badPclRec, goodPclRec]).count = 2) ∧
    process_fs_pcl_records (init_request ["L"] (fun _ => "sensor_msgs/PointCloud2")) "L"
        [badPclRec, goodPclRec]
      = RunRes.err (init_request ["L"] (fun _ => "sensor_msgs/PointCloud2")) [] 0 :=
  ⟨(claim_C4_per_record_errors.1 _ _ _).2,
    claim_C4_per_record_errors.2.2.2.1 _ _ _ _ rfl⟩

/-- C5: every reachable session state has an empty skip set —
`init_request` creates `round_robin` empty and no operation ever inserts
into it (the only mutation is the guarded eviction in `__publish_ros_msg`,
which requires it non-empty) — hence the skip test never skips any
candidate and the scan coincides with plain cursor-order selection of the
first non-empty queue. -/
theorem claim_C5_skip_set_empty (sensors : List Sensor) (dt : Sensor → String)
    (s : NodeState) (h : Reachable sensors dt s) :
    s.round_robin = [] ∧ (∀ cand, rr_skip s cand = false) ∧
    (∀ fuel, rr_scan fuel s = plain_scan fuel s) := by
  have hrr : s.round_robin = [] := by
    induction h with
    | init => rfl
    | submit s a m _ ih => exact publish_ros_msg_rr s a m ih
    | deactivate s a b _ ih => exact ih
    | flush s _ ih => rw [flush_state_rr]; exact ih
  exact ⟨hrr, fun c => rr_skip_nil s c hrr, fun fuel => rr_scan_eq_plain fuel s hrr⟩

/-- C5 witness: the invariant at the initial state of a session. -/
theorem claim_C5_skip_set_empty_witness :
    (init_request ["cam"] (fun _ => "sensor_msgs/Image")).round_robin = [] ∧
    rr_skip (init_request ["cam"] (fun _ => "sensor_msgs/Image")) "cam" = false :=
  ⟨(claim_C5_skip_set_empty ["cam"] (fun _ => "sensor_msgs/Image") _ Reachable.init).1,
    (claim_C5_skip_set_empty ["cam"] (fun _ => "sensor_msgs/Image") _ Reachable.init).2.1 "cam"⟩

/-- C6 amended: when a session-level unexpected error escapes a worker
body, `__publish_sensor` catches it and the worker stops with the state at
the raise point, leaving other sensors' state components untouched — but
the sensor is NOT marked inactive: its active flag keeps the value it had,
because no error path writes `sensor_active`; the flag is cleared only at
normal completion of the worker loop. -/
theorem claim_C6_error_keeps_active (preview : Bool) (imgMode dsInput : String)
    (s : NodeState) (sensor : Sensor) (m : SensorManifest)
    (s1 : NodeState) (p : List Pub) (k : Nat)
    (h : worker_run preview imgMode dsInput s sensor m = RunRes.err s1 p k) :
    publish_sensor preview imgMode dsInput s sensor m = (s1, p) ∧
    s1.sensor_active sensor = s.sensor_active sensor := by
  constructor
  · unfold publish_sensor
    rw [h]
  · exact congrFun (worker_run_err_active preview imgMode dsInput s sensor m s1 p k h) sensor

/-- C6 counterexample: a bus worker whose first manifest fetch raises
stops, but the sensor's active flag stays true — the claim's "its active
flag becomes false" is violated. -/
theorem claim_C6_counterexample :
    (publish_sensor true "original" "local" (init_request ["A"] (fun _ => "a2d2_msgs/Bus")) "A"
        (SensorManifest.bus [Except.error ()])).1.sensor_active "A" = true := by
  rfl

/-- C6 witness: the amended theorem applied to a filesystem point-cloud
worker whose first record fails to parse; the flag stays true. -/
theorem claim_C6_error_keeps_active_witness :
    (publish_sensor false "original" "local"
        (init_request ["L"] (fun _ => "sensor_msgs/PointCloud2")) "L"
        (SensorManifest.pcl [Except.ok [badPclRec]])).1.sensor_active "L" = true := by
  have h := claim_C6_error_keeps_active false "original" "local"
      (init_request ["L"] (fun _ => "sensor_msgs/PointCloud2")) "L"
      (SensorManifest.pcl [Except.ok [badPclRec]])
      (init_request ["L"] (fun _ => "sensor_msgs/PointCloud2")) [] 0 rfl
  rw [h.1]
  rfl

/-- C7: the NaN gate of both point-cloud paths — a decoded cloud with a
NaN coordinate is never submitted to the dispatcher (the state is left
untouched and nothing reaches the sink); a decoded cloud with no NaN whose
message construction succeeds is always submitted, producing exactly one
publish-sink call when the skip set is empty and the sensor is listed. -/
theorem claim_C7_nan_policy (s : NodeState) (sensor : Sensor) (r : PclRec)
    (hdec : r.parse_ok = true) :
    (hasNaN r.points = true →
      process_fs_pcl_records s sensor [r] = RunRes.ok s [] 1 ∧
      process_s3_pcl_files s sensor [r] = RunRes.ok s [] 1) ∧
    (hasNaN r.points = false → r.convert_ok = true → s.round_robin = [] →
      sensor ∈ s.sensor_list →
      ((process_fs_pcl_records s sensor [r]).pubs).length = 1 ∧
      ((process_s3_pcl_files s sensor [r]).pubs).length = 1) := by
  constructor
  · intro hnan
    constructor
    · simp [process_fs_pcl_records, fold_records, hdec, hnan]
    · simp [process_s3_pcl_files, fold_records, hdec, hnan]
  · intro hnan hconv hrr hmem
    have hone := publish_ros_msg_one s sensor r.msg hrr hmem
    constructor
    · simp [process_fs_pcl_records, fold_records, publish_pcl_msg, hdec, hnan, hconv, hone]
    · simp [process_s3_pcl_files, fold_records, publish_pcl_msg, hdec, hnan, hconv, hone]

/-- C7 witness: a NaN cloud is dropped silently, a clean cloud is
submitted and published once. -/
theorem claim_C7_nan_policy_witness :
    process_fs_pcl_records (init_request ["L"] (fun _ => "sensor_msgs/PointCloud2")) "L"
        [nanPclRec]
      = RunRes.ok (init_request ["L"] (fun _ => "sensor_msgs/PointCloud2")) [] 1 ∧
    ((process_fs_pcl_records (init_request ["L"] (fun _ => "sensor_msgs/PointCloud2")) "L"
        [goodPclRec]).pubs).length = 1 :=
  ⟨((claim_C7_nan_policy _ "L" nanPclRec rfl).1 rfl).1,
    ((claim_C7_nan_policy _ "L" goodPclRec rfl).2 rfl rfl rfl (by decide)).1⟩

/-- C8: with preview set, each of the five worker loops (image,
point-cloud and bus, in filesystem and object-store modes) processes at
most one manifest batch, whatever the manifest. -/
theorem claim_C8_preview_one_batch :
    (∀ imgMode (s : NodeState) sensor (l : Fetches ImgRec),
      (publish_images_from_fs true imgMode s sensor l).count ≤ 1) ∧
    (∀ imgMode (s : NodeState) sensor (l : Fetches ImgRec),
      (publish_images_from_s3 true imgMode s sensor l).count ≤ 1) ∧
    (∀ (s : NodeState) sensor (l : Fetches PclRec),
      (publish_pcl_from_fs true s sensor l).count ≤ 1) ∧
    (∀ (s : NodeState) sensor (l : Fetches PclRec),
      (publish_pcl_from_s3 true s sensor l).count ≤ 1) ∧
    (∀ (s : NodeState) sensor (l : Fetches BusRec),
      (publish_bus true s sensor l).count ≤ 1) :=
  ⟨fun _ s sensor l => sensor_loop_preview _ sensor l s,
   fun _ s sensor l => sensor_loop_preview _ sensor l s,
   fun s sensor l => sensor_loop_preview _ sensor l s,
   fun s sensor l => sensor_loop_preview _ sensor l s,
   fun s sensor l => sensor_loop_preview _ sensor l s⟩

/-- C9: a serialized `__publish_ros_msg` call with an empty skip set and a
listed submitter pops and publishes exactly one message; in a serialized
session from `init_request` every queue is empty after every completed
call (the total queued is zero) and the number of publishes equals the
number of submissions; and the published message can come from a different
sensor than the submitter, as at `stateC9`. -/
theorem claim_C9_one_pop_per_call :
    (∀ (s : NodeState) a m, s.round_robin = [] → a ∈ s.sensor_list →
      ((publish_ros_msg s a m).2).length = 1) ∧
    (∀ sensors (dt : Sensor → String) (pre post : List (Sensor × Msg)),
      (∀ p ∈ pre ++ post, p.1 ∈ sensors) →
      (∀ k, (run (init_request sensors dt) pre).1.sensor_dict k = []) ∧
      ((run (init_request sensors dt) pre).2).length = pre.length) ∧
    ((publish_ros_msg stateC9 "A" 7).2 = [("B", 5)] ∧ stateC9.round_robin = []) := by
  refine ⟨publish_ros_msg_one, ?_, by constructor <;> rfl⟩
  intro sensors dt pre post hmem
  have h := run_allEmpty pre (init_request sensors dt) rfl (fun _ => rfl)
      (fun p hp => hmem p (List.mem_append.mpr (Or.inl hp)))
  exact ⟨h.2.1, by rw [h.1]⟩

/-- C9 witness: one call from a fresh two-sensor session publishes exactly
one message. -/
theorem claim_C9_one_pop_per_call_witness :
    ((publish_ros_msg (init_request ["x", "y"] (fun _ => "sensor_msgs/Image")) "x" 11).2).length = 1 :=
  claim_C9_one_pop_per_call.1 _ "x" 11 rfl (by decide)

/-- C10: `__round_robin_sensor` enqueues the message object itself while
`__flush_sensors` publishes `front.msg`, a field the queued ROS messages
do not have; hence whenever some listed sensor's queue is non-empty when
the flush runs, the flush raises (the error is re-raised out of
`__flush_sensors`) and publishes nothing, instead of delivering the queued
message. -/
theorem claim_C10_flush_shape_mismatch (s : NodeState)
    (hx : ∃ x ∈ s.sensor_list, s.sensor_dict x ≠ []) :
    (flush_sensors s).isErr = true ∧ (flush_sensors s).pubs = [] :=
  flush_sensors_pending s hx

/-- C10 witness: the flush of a session left with two queued messages on
one of its two sensors raises and publishes nothing. -/
theorem claim_C10_flush_shape_mismatch_witness :
    (flush_sensors stateC10).isErr = true ∧ (flush_sensors stateC10).pubs = [] :=
  claim_C10_flush_shape_mismatch stateC10 (by decide)

end RosDataNode
